import Mathlib

/-!
Shallow embedding of the Tor_unveil analytic pipeline:
flow reconstruction from packet captures (`src/src/collector/pcap_ingest.py`),
heuristic classification (`src/backend/src/parser/tor_extractor.py`),
pairwise flow correlation (`src/backend/src/correlator/correlation_engine.py`),
and confidence scoring (`src/src/scorer/confidence.py`).

Python floats are modelled as exact rationals (ℚ); machine integers as `Nat`;
byte strings as `List Nat`; fallible code returns `Except String`.
-/

namespace TorUnveil

set_option maxRecDepth 100000

/-- A byte of a payload sample (value of one position of a Python `bytes`). -/
abbrev Byte := Nat

/-! ## Python string helpers (structural, over `List Char`) -/

/-- `listStartsWith s pat` : does `s` begin with `pat`?  Models `str.startswith`. -/
def listStartsWith : List Char → List Char → Bool
  | _, [] => true
  | [], _ :: _ => false
  | c :: cs, p :: ps => c = p && listStartsWith cs ps

/-- Models Python `s.startswith(pat)` on `String`. -/
def pyStartsWith (s pat : String) : Bool :=
  listStartsWith s.data pat.data

/-- Helper for `splitOnDot`: `cur` is the reversed current chunk. -/
def splitOnDotAux (cur : List Char) : List Char → List (List Char)
  | [] => [cur.reverse]
  | c :: rest =>
      if c = '.' then cur.reverse :: splitOnDotAux [] rest
      else splitOnDotAux (c :: cur) rest

/-- Models Python `s.split('.')`. -/
def splitOnDot (s : String) : List (List Char) :=
  splitOnDotAux [] s.data

/-- Digits of a decimal numeral to its value; `none` when empty or a
non-digit occurs.  Helper for `pyInt?`. -/
def digitsToNat? : List Char → Option Nat
  | [] => none
  | cs => cs.foldl
      (fun acc c =>
        match acc with
        | none => none
        | some n => if c.isDigit then some (n * 10 + (c.toNat - 48)) else none)
      (some 0)

/-- Models Python `int(s)` on a string already split out of an address:
optional sign followed by a nonempty digit run; `none` models the
`ValueError` raised otherwise. -/
def pyInt? (cs : List Char) : Option Int :=
  match cs with
  | '+' :: rest => (digitsToNat? rest).map Int.ofNat
  | '-' :: rest => (digitsToNat? rest).map (fun n => -(n : Int))
  | _ => (digitsToNat? cs).map Int.ofNat

/-! ## Data model (`src/backend/src/db/models.py`) -/

/-- A persisted relay-node record (`TorNode` in `models.py`). -/
structure TorNode where
  id : Nat
  ip_address : String
  port : Nat
  fingerprint : Option String
  nickname : Option String
  flags : List String
  country_code : Option String
  asn : Option String
  bandwidth : Option Nat
deriving DecidableEq, Repr

/-- A persisted flow record (`Flow` in `models.py`), after ingest, as the
classifier / correlator / scorer see it.  `payload_sample` is the decoded
payload prefix (base64 round-trips losslessly, so we keep raw bytes). -/
structure Flow where
  id : Nat
  src_ip : String
  src_port : Nat
  dst_ip : String
  dst_port : Nat
  protocol : String
  ts_start : ℚ
  ts_end : ℚ
  pkt_count : Nat
  byte_count : Nat
  payload_sample : Option (List Byte)
  possible_tor_handshake : Bool
  relay_comm : Bool
  directory_fetch : Bool
  obfsproxy_candidate : Bool
  confidence_score : ℚ
  confidence_category : Option String
deriving DecidableEq, Repr

/-- A persisted correlation row (`Correlation` in `models.py`).  We store the
two flows by value (the source stores their ids; flows carry their id). -/
structure CorrRow where
  flow1 : Flow
  flow2 : Flow
  correlation_weight : ℚ
  correlation_type : String
deriving DecidableEq, Repr

/-! ## Ingestor (`src/src/collector/pcap_ingest.py`) -/

/-- Directional 5-tuple identifying a flow (`FlowKey`). -/
structure FlowKey where
  src_ip : String
  src_port : Nat
  dst_ip : String
  dst_port : Nat
  proto : String
deriving DecidableEq, Repr

/-- In-memory flow accumulator (`FlowRecord`). -/
structure FlowRecord where
  key : FlowKey
  ts_start : ℚ
  ts_end : ℚ
  pkt_count : Nat
  byte_count : Nat
  payload_sample : Option (List Byte)
deriving DecidableEq, Repr

/-- `FlowRecord.__init__`: both timestamps equal to the packet time,
counters zero, no payload sample. -/
def FlowRecord.init (key : FlowKey) (timestamp : ℚ) : FlowRecord :=
  { key := key, ts_start := timestamp, ts_end := timestamp,
    pkt_count := 0, byte_count := 0, payload_sample := none }

/-- Python truthiness of the stored sample: `not self.payload_sample`. -/
def FlowRecord.sampleUnset (r : FlowRecord) : Bool :=
  match r.payload_sample with
  | none => true
  | some s => s.isEmpty

/-- `FlowRecord.update`: assigns `ts_end` to the packet time, increments the
counters, and captures the first nonempty payload truncated to 512 bytes. -/
def FlowRecord.update (r : FlowRecord) (timestamp : ℚ)
    (payload : Option (List Byte)) (pkt_size : Nat) : FlowRecord :=
  { r with
    ts_end := timestamp
    pkt_count := r.pkt_count + 1
    byte_count := r.byte_count + pkt_size
    payload_sample :=
      match payload with
      | some p => if ¬ p.isEmpty ∧ r.sampleUnset then some (p.take 512)
                  else r.payload_sample
      | none => r.payload_sample }

/-- Network (L3) layer of a captured packet. -/
inductive L3Layer where
  | ipv4 (src dst : String)
  | ipv6 (src dst : String)
  | other
deriving DecidableEq, Repr

/-- Transport (L4) layer of a captured packet. -/
inductive L4Layer where
  | tcp (sport dport : Nat)
  | udp (sport dport : Nat)
  | other
deriving DecidableEq, Repr

/-- A captured packet as the ingestor's `process_packet` sees it. -/
structure Packet where
  l3 : L3Layer
  l4 : L4Layer
  time : ℚ
  size : Nat
  payload : Option (List Byte)
deriving DecidableEq, Repr

/-- The 5-tuple extraction of `process_packet`; `none` when an L3 or L4
layer is unsupported (the packet is skipped). -/
def packetKey (p : Packet) : Option FlowKey :=
  match p.l3 with
  | .ipv4 s d =>
      match p.l4 with
      | .tcp sp dp => some ⟨s, sp, d, dp, "TCP"⟩
      | .udp sp dp => some ⟨s, sp, d, dp, "UDP"⟩
      | .other => none
  | .ipv6 s d =>
      match p.l4 with
      | .tcp sp dp => some ⟨s, sp, d, dp, "TCP"⟩
      | .udp sp dp => some ⟨s, sp, d, dp, "UDP"⟩
      | .other => none
  | .other => none

/-- A packet is parseable when it has a supported L3 and L4 layer. -/
def parseable (p : Packet) : Bool :=
  (packetKey p).isSome

/-- Lookup in the insertion-ordered accumulator map (`self.flows`). -/
def lookupKey (m : List (FlowKey × FlowRecord)) (k : FlowKey) : Option FlowRecord :=
  match m with
  | [] => none
  | kv :: rest => if kv.1 = k then some kv.2 else lookupKey rest k

/-- Replace the record stored under `k` (dict item assignment). -/
def updateAssoc (m : List (FlowKey × FlowRecord)) (k : FlowKey)
    (f : FlowRecord → FlowRecord) : List (FlowKey × FlowRecord) :=
  m.map (fun kv => if kv.1 = k then (kv.1, f kv.2) else kv)

/-- `PcapIngestor.process_packet`: skip unparseable packets, create the
accumulator when the key is new, then `update` it. -/
def processPacket (m : List (FlowKey × FlowRecord)) (p : Packet) :
    List (FlowKey × FlowRecord) :=
  match packetKey p with
  | none => m
  | some k =>
      let m' := match lookupKey m k with
        | some _ => m
        | none => m ++ [(k, FlowRecord.init k p.time)]
      updateAssoc m' k (fun r => r.update p.time p.payload p.size)

/-- Ingest state: live accumulator map plus the persisted Flow rows. -/
structure IngestState where
  flows : List (FlowKey × FlowRecord)
  store : List FlowRecord
deriving DecidableEq, Repr

/-- `PcapIngestor._flush_flows`: bulk-save every accumulator to the Store.
Faithful to the source, it does NOT clear the in-memory map. -/
def flushFlows (st : IngestState) : IngestState :=
  if st.flows.isEmpty then st
  else { st with store := st.store ++ st.flows.map Prod.snd }

/-- One streaming-mode iteration: process the packet, then flush when the
number of live accumulators has reached the batch size. -/
def ingestStepStreaming (batch_size : Nat) (st : IngestState) (p : Packet) :
    IngestState :=
  let st' := { st with flows := processPacket st.flows p }
  if batch_size ≤ st'.flows.length then flushFlows st' else st'

/-- `PcapIngestor.ingest_pcap` into an empty store: streaming or eager
iteration over the capture followed by the final flush. -/
def ingestPcap (batch_size : Nat) (streaming : Bool) (pkts : List Packet) :
    IngestState :=
  let st0 : IngestState := ⟨[], []⟩
  let st :=
    if streaming then
      pkts.foldl (ingestStepStreaming batch_size) st0
    else
      { st0 with flows := pkts.foldl processPacket [] }
  flushFlows st

/-! ## Classifier (`src/backend/src/parser/tor_extractor.py`) -/

/-- `TorExtractor.TOR_PORTS`. -/
def TOR_PORTS : List Nat := [9001, 9030, 9050, 9051, 9150]

/-- The protocol markers of `_check_obfsproxy_patterns`, as byte lists:
`HTTP/`, `GET `, `POST `, `SSH-`, `220 `, `CONNECT`. -/
def commonMarkers : List (List Byte) :=
  [ [72, 84, 84, 80, 47]
  , [71, 69, 84, 32]
  , [80, 79, 83, 84, 32]
  , [83, 83, 72, 45]
  , [50, 50, 48, 32]
  , [67, 79, 78, 78, 69, 67, 84] ]

/-- Is `pat` an initial segment of `l`? -/
def bytesStartWith : List Byte → List Byte → Bool
  | _, [] => true
  | [], _ :: _ => false
  | a :: as, b :: bs => a = b && bytesStartWith as bs

/-- Substring containment on byte lists (Python `marker in payload`). -/
def hasSub (pat : List Byte) : List Byte → Bool
  | [] => pat.isEmpty
  | a :: rest => bytesStartWith (a :: rest) pat || hasSub pat rest

/-- Number of distinct byte values (`len(set(bs))`). -/
def countDistinct (l : List Byte) : Nat :=
  (l.foldl (fun acc x => if x ∈ acc then acc else x :: acc) []).length

/-- `TorExtractor._check_obfsproxy_patterns`. -/
def checkObfsproxyPatterns (payload : List Byte) : Bool :=
  if payload.length < 20 then false
  else
    let hasMarker := commonMarkers.any (fun m => hasSub m (payload.take 100))
    if ¬ hasMarker ∧ payload.length > 100 then
      decide (countDistinct (payload.take 100) > 50)
    else false

/-- `TorExtractor.TLS_CLIENT_HELLO` = `b'\x16\x03'`. -/
def TLS_CLIENT_HELLO : List Byte := [22, 3]

/-- `TorExtractor.TOR_HANDSHAKE_PATTERNS`. -/
def TOR_HANDSHAKE_PATTERNS : List (List Byte) := [[0, 0, 0], [3, 0]]

/-- `TorExtractor._analyze_flow`: set the four indicator booleans of one
flow.  `tor_node_ips` is the cached directory address set. -/
def analyzeFlow (tor_node_ips : List String) (f : Flow) : Flow :=
  let f := if tor_node_ips.contains f.dst_ip then { f with relay_comm := true } else f
  let f := if TOR_PORTS.contains f.dst_port then { f with relay_comm := true } else f
  let f := if f.dst_port = 9030 then { f with directory_fetch := true } else f
  match f.payload_sample with
  | none => f
  | some payload =>
      let f :=
        if bytesStartWith payload TLS_CLIENT_HELLO
            ∧ TOR_HANDSHAKE_PATTERNS.any (fun pat => hasSub pat payload) then
          { f with possible_tor_handshake := true }
        else f
      if checkObfsproxyPatterns payload then { f with obfsproxy_candidate := true }
      else f

/-- The relay-directory snapshot record handed to `_load_tor_nodes`
(one entry of the JSON node list). -/
structure NodeData where
  ip_address : String
  port : Nat
  fingerprint : Option String
  nickname : Option String
  flags : List String
  country_code : Option String
  asn : Option String
  bandwidth : Option Nat
deriving DecidableEq, Repr

/-- Build the `TorNode` row inserted for a snapshot record. -/
def NodeData.toNode (d : NodeData) (id : Nat) : TorNode :=
  { id := id, ip_address := d.ip_address, port := d.port,
    fingerprint := d.fingerprint, nickname := d.nickname, flags := d.flags,
    country_code := d.country_code, asn := d.asn, bandwidth := d.bandwidth }

/-- `TorExtractor._load_tor_nodes`: for each snapshot record, insert a new
row only when no row with the same address exists; existing rows are left
untouched.  New rows receive fresh consecutive primary keys. -/
def loadTorNodes (store : List TorNode) (snap : List NodeData) (nextId : Nat) :
    List TorNode :=
  match snap with
  | [] => store
  | d :: rest =>
      if store.any (fun n => n.ip_address = d.ip_address) then
        loadTorNodes store rest nextId
      else
        loadTorNodes (store ++ [d.toNode nextId]) rest (nextId + 1)

/-! ## Correlator (`src/backend/src/correlator/correlation_engine.py`) -/

/-- `CorrelationEngine._is_internal_ip`.  The `Except` models the
`ValueError` raised by `int(parts[1])` on a malformed second component. -/
def isInternalIpE (ip : String) (known : List String) : Except String Bool :=
  if known ≠ [] ∧ ip ∈ known then .ok true
  else if pyStartsWith ip "10." then .ok true
  else if pyStartsWith ip "192.168." then .ok true
  else if pyStartsWith ip "172." then
    match splitOnDot ip with
    | _ :: p2 :: _ =>
        match pyInt? p2 with
        | none => .error "ValueError: invalid literal for int"
        | some so => if 16 ≤ so ∧ so ≤ 31 then .ok true else .ok false
    | _ => .ok false
  else .ok false

/-- `CorrelationEngine._get_internal_ips`: filter the distinct source
addresses through `_is_internal_ip` (no known set), propagating any raise. -/
def getInternalIpsE : List String → Except String (List String)
  | [] => .ok []
  | ip :: rest =>
      match isInternalIpE ip [] with
      | .error e => .error e
      | .ok b =>
          match getInternalIpsE rest with
          | .error e => .error e
          | .ok tail => if b then .ok (ip :: tail) else .ok tail

/-- `CorrelationEngine._check_entry_exit_pattern`: guard→exit, or
relay→non-relay. -/
def checkEntryExitPattern (nodes : List TorNode) (flow1 flow2 : Flow) : Bool :=
  let n1 := nodes.find? (fun n => n.ip_address = flow1.dst_ip)
  let n2 := nodes.find? (fun n => n.ip_address = flow2.dst_ip)
  (match n1, n2 with
    | some t1, some t2 =>
        ¬ t1.flags.isEmpty && t1.flags.contains "Guard" && t2.flags.contains "Exit"
    | _, _ => false)
  || (n1.isSome && n2.isNone)

/-- `CorrelationEngine._calculate_correlation`: sequential accumulation of
the four weight components, as the source writes it. -/
def calcCorrelation (nodes : List TorNode) (flow1 flow2 : Flow) : ℚ :=
  let time_diff := |flow2.ts_start - flow1.ts_start|
  let timing_score : ℚ :=
    if time_diff < 1 then 0.4
    else if time_diff < 5 then 0.3
    else if time_diff < 10 then 0.2
    else 0.1
  let w := timing_score
  let w := if checkEntryExitPattern nodes flow1 flow2 then w + 0.3 else w
  let w :=
    if 0 < flow1.pkt_count ∧ 0 < flow2.pkt_count then
      let avg1 : ℚ := (flow1.byte_count : ℚ) / (flow1.pkt_count : ℚ)
      let avg2 : ℚ := (flow2.byte_count : ℚ) / (flow2.pkt_count : ℚ)
      w + min avg1 avg2 / max avg1 avg2 * 0.2
    else w
  if flow1.src_ip = flow2.src_ip then w + 0.1 else w

/-- The spec's closed-form weight: timing term + 0.3 on entry/exit +
0.2·(size ratio) when both packet counts are positive + 0.1 on same source.
Written from the specification text, to be compared with
`calcCorrelation`. -/
def specCorrelationWeight (nodes : List TorNode) (a b : Flow) : ℚ :=
  (if |b.ts_start - a.ts_start| < 1 then 0.4
   else if |b.ts_start - a.ts_start| < 5 then 0.3
   else if |b.ts_start - a.ts_start| < 10 then 0.2
   else 0.1)
  + (if checkEntryExitPattern nodes a b then 0.3 else 0)
  + (if 0 < a.pkt_count ∧ 0 < b.pkt_count then
       0.2 * (min ((a.byte_count : ℚ) / (a.pkt_count : ℚ)) ((b.byte_count : ℚ) / (b.pkt_count : ℚ))
              / max ((a.byte_count : ℚ) / (a.pkt_count : ℚ)) ((b.byte_count : ℚ) / (b.pkt_count : ℚ)))
     else 0)
  + (if a.src_ip = b.src_ip then 0.1 else 0)

/-- The correlation row persisted for a qualifying pair
(`evidence.get('type', 'timing')`). -/
def mkCorrRow (nodes : List TorNode) (flow1 flow2 : Flow) (w : ℚ) : CorrRow :=
  { flow1 := flow1, flow2 := flow2, correlation_weight := w,
    correlation_type :=
      if checkEntryExitPattern nodes flow1 flow2 then "entry_exit" else "timing" }

/-- The inner loop of `correlate_flows` for one left flow `flow1`:
skip non-internal candidates, break past the window, persist a row when
the weight reaches the threshold. -/
def innerScanE (nodes : List TorNode) (θ W : ℚ) (known : List String)
    (flow1 : Flow) : List Flow → Except String (List CorrRow)
  | [] => .ok []
  | flow2 :: rest =>
      match isInternalIpE flow2.src_ip known with
      | .error e => .error e
      | .ok b =>
          if ¬ b then innerScanE nodes θ W known flow1 rest
          else if W < |flow2.ts_start - flow1.ts_start| then .ok []
          else
            let w := calcCorrelation nodes flow1 flow2
            if θ ≤ w then
              match innerScanE nodes θ W known flow1 rest with
              | .error e => .error e
              | .ok tail => .ok (mkCorrRow nodes flow1 flow2 w :: tail)
            else innerScanE nodes θ W known flow1 rest

/-- The outer loop of `correlate_flows`: every internal-source flow is
paired against the suffix following it. -/
def outerScanE (nodes : List TorNode) (θ W : ℚ) (known : List String) :
    List Flow → Except String (List CorrRow)
  | [] => .ok []
  | f :: rest =>
      match isInternalIpE f.src_ip known with
      | .error e => .error e
      | .ok b =>
          match (if b then innerScanE nodes θ W known f rest else .ok []) with
          | .error e => .error e
          | .ok here =>
              match outerScanE nodes θ W known rest with
              | .error e => .error e
              | .ok there => .ok (here ++ there)

/-- Stable insertion into a `ts_start`-sorted list. -/
def insertByTs (f : Flow) : List Flow → List Flow
  | [] => [f]
  | g :: rest => if f.ts_start ≤ g.ts_start then f :: g :: rest
      else g :: insertByTs f rest

/-- The Store's `ORDER BY ts_start` (stable sort). -/
def sortFlows : List Flow → List Flow
  | [] => []
  | f :: rest => insertByTs f (sortFlows rest)

/-- Does a flow carry at least one classifier indicator
(the `or_` filter of `correlate_flows`)? -/
def torRelated (f : Flow) : Bool :=
  f.possible_tor_handshake || f.relay_comm || f.directory_fetch || f.obfsproxy_candidate

/-- First-occurrence deduplication (`SELECT DISTINCT src_ip`). -/
def dedupStr : List String → List String
  | [] => []
  | s :: rest => if (dedupStr rest).contains s then dedupStr rest else s :: dedupStr rest

/-- The persistent store as the correlator sees it. -/
structure Store where
  flows : List Flow
  nodes : List TorNode
  correlations : List CorrRow
deriving DecidableEq, Repr

/-- `CorrelationEngine.correlate_flows`: query the indicator-bearing flows
ordered by `ts_start`, compute the internal-address set, run the pairwise
scan, and APPEND the new rows to the store (the source never deletes prior
`Correlation` rows). -/
def correlateFlowsE (θ W : ℚ) (s : Store) : Except String Store :=
  match getInternalIpsE (dedupStr (s.flows.map (fun f => f.src_ip))) with
  | .error e => .error e
  | .ok known =>
      match outerScanE s.nodes θ W known (sortFlows (s.flows.filter torRelated)) with
      | .error e => .error e
      | .ok rows => .ok { s with correlations := s.correlations ++ rows }

/-! ## Scorer (`src/src/scorer/confidence.py`) -/

/-- `ScoreComponents`. -/
structure ScoreComponents where
  tor_node_match : ℚ
  timing_correlation : ℚ
  payload_similarity : ℚ
  unusual_patterns : ℚ
  total : ℚ
deriving DecidableEq, Repr

/-- `ConfidenceScorer._score_tor_node_match` (cap 40). -/
def scoreTorNodeMatch (nodes : List TorNode) (f : Flow) : ℚ :=
  let max_score : ℚ := 40
  let score : ℚ := 0
  let score :=
    match nodes.find? (fun n => n.ip_address = f.dst_ip) with
    | some tor_node =>
        let score := score + max_score * 0.5
        if ¬ tor_node.flags.isEmpty then
          let score := if tor_node.flags.contains "Guard" then score + max_score * 0.2 else score
          let score := if tor_node.flags.contains "Exit" then score + max_score * 0.2 else score
          if tor_node.flags.contains "Fast" then score + max_score * 0.1 else score
        else score
    | none => score
  let score := if f.relay_comm then score + max_score * 0.3 else score
  let score := if f.directory_fetch then score + max_score * 0.2 else score
  let score := if f.possible_tor_handshake then score + max_score * 0.3 else score
  let score := if f.obfsproxy_candidate then score + max_score * 0.4 else score
  min score max_score

/-- `ConfidenceScorer._score_timing_correlation` (cap 30). -/
def scoreTimingCorrelation (corrs : List CorrRow) (f : Flow) : ℚ :=
  let max_score : ℚ := 30
  let rel := corrs.filter (fun c => c.flow1.id = f.id ∨ c.flow2.id = f.id)
  if rel.isEmpty then 0
  else
    let total_weight : ℚ := (rel.map (fun c => c.correlation_weight)).sum
    let n := rel.length
    let count_score : ℚ :=
      if 5 ≤ n then max_score * 0.5
      else if 3 ≤ n then max_score * 0.3
      else if 1 ≤ n then max_score * 0.2
      else 0
    let avg_weight : ℚ := if 0 < n then total_weight / (n : ℚ) else 0
    min (count_score + avg_weight * max_score * 0.5) max_score

/-- `ConfidenceScorer._score_payload_patterns` (cap 20).  Returns 0 when
the stored payload sample is unset or empty (Python falsiness). -/
def scorePayloadPatterns (f : Flow) : ℚ :=
  let max_score : ℚ := 20
  match f.payload_sample with
  | none => 0
  | some p =>
      if p.isEmpty then 0
      else
        let score : ℚ := 0
        let score := if f.possible_tor_handshake then score + max_score * 0.6 else score
        let score := if f.obfsproxy_candidate then score + max_score * 0.8 else score
        let score := if 10000 < f.byte_count then score + max_score * 0.2 else score
        min score max_score

/-- `ConfidenceScorer._score_unusual_patterns` (cap 10). -/
def scoreUnusualPatterns (f : Flow) : ℚ :=
  let max_score : ℚ := 10
  let score : ℚ := 0
  let score := if TOR_PORTS.contains f.dst_port then score + max_score * 0.5 else score
  let score := if 100 < f.pkt_count then score + max_score * 0.3 else score
  let score := if 60 < f.ts_end - f.ts_start then score + max_score * 0.2 else score
  min score max_score

/-- `ConfidenceScorer._calculate_score`: the four components and the total
clamped to [0, 100]. -/
def calculateScore (nodes : List TorNode) (corrs : List CorrRow) (f : Flow) :
    ScoreComponents :=
  let t := scoreTorNodeMatch nodes f
  let c := scoreTimingCorrelation corrs f
  let p := scorePayloadPatterns f
  let u := scoreUnusualPatterns f
  { tor_node_match := t, timing_correlation := c, payload_similarity := p,
    unusual_patterns := u, total := max 0 (min 100 (t + c + p + u)) }

/-- `ConfidenceScorer._get_category`: half-open score bands, `Critical`
when no band matches. -/
def getCategory (score : ℚ) : String :=
  if 0 ≤ score ∧ score < 30 then "Low"
  else if 30 ≤ score ∧ score < 60 then "Medium"
  else if 60 ≤ score ∧ score < 85 then "High"
  else if 85 ≤ score ∧ score < 100 then "Critical"
  else "Critical"

/-- The store as the scorer sees it. -/
structure ScoreStore where
  flows : List Flow
  nodes : List TorNode
  correlations : List CorrRow
deriving DecidableEq, Repr

/-- `ConfidenceScorer.score_flow`: look the flow up, raise
`ValueError("Flow <id> not found")` when absent.  Output: the result, the
resulting store (the function never commits a write), and whether the
session was closed on exit (the `finally` block). -/
def scoreFlowE (s : ScoreStore) (flow_id : Nat) :
    Except String (ℚ × ScoreComponents) × ScoreStore × Bool :=
  match s.flows.find? (fun f => f.id = flow_id) with
  | none => (.error ("Flow " ++ toString flow_id ++ " not found"), s, true)
  | some f =>
      let comps := calculateScore s.nodes s.correlations f
      (.ok (comps.total, comps), s, true)

/-! ## Invariant predicates for the ingest claims -/

/-- The per-flow invariant of §8 of the specification. -/
def flowInv (r : FlowRecord) : Prop :=
  1 ≤ r.pkt_count ∧ r.pkt_count ≤ r.byte_count ∧ r.ts_start ≤ r.ts_end ∧
    ∀ p, r.payload_sample = some p → p.length ≤ 512

/-- Ingest-state invariant relative to the packets still to come: every
persisted row and every live accumulator satisfies `flowInv`, and every
accumulator started no later than any future packet. -/
def stInv (st : IngestState) (future : List Packet) : Prop :=
  (∀ r ∈ st.store, flowInv r) ∧
    ∀ kv ∈ st.flows, flowInv kv.2 ∧ ∀ p ∈ future, kv.2.ts_start ≤ p.time

/-! ## Concrete fixtures used by the individual claims -/

/-- A parseable TCP packet of the single 5-tuple used for the streaming
batch-flush analysis. -/
def c1Pkt (t : ℚ) : Packet :=
  { l3 := .ipv4 "192.168.1.100" "185.220.101.1", l4 := .tcp 50000 9001,
    time := t, size := 100, payload := none }

/-- Out-of-order capture, first packet. -/
def c4PktA : Packet :=
  { l3 := .ipv4 "10.0.0.1" "10.0.0.9", l4 := .tcp 1111 2222,
    time := 10, size := 50, payload := none }

/-- Out-of-order capture, second packet: same 5-tuple, earlier time. -/
def c4PktB : Packet :=
  { l3 := .ipv4 "10.0.0.1" "10.0.0.9", l4 := .tcp 1111 2222,
    time := 5, size := 50, payload := none }

/-- A single well-formed packet, for the witness of the amended ingest
invariants. -/
def c4wPkt : Packet :=
  { l3 := .ipv4 "10.0.0.1" "10.0.0.9", l4 := .udp 1111 53,
    time := 3, size := 70, payload := some [1, 2, 3] }

/-- Node directory entry of the end-to-end fixture: `185.220.101.1` with
flags `[Guard, Fast, Stable]`. -/
def c3Node : TorNode :=
  { id := 1, ip_address := "185.220.101.1", port := 9001,
    fingerprint := some "ABC123", nickname := some "TestRelay",
    flags := ["Guard", "Fast", "Stable"], country_code := none,
    asn := none, bandwidth := none }

/-- The fixture flow as ingested: one TCP flow
`192.168.1.100:50000 → 185.220.101.1:9001`, 100 packets, 10000 bytes,
no payload, before classification. -/
def c3FlowRaw : Flow :=
  { id := 1, src_ip := "192.168.1.100", src_port := 50000,
    dst_ip := "185.220.101.1", dst_port := 9001, protocol := "TCP",
    ts_start := 0, ts_end := 0, pkt_count := 100, byte_count := 10000,
    payload_sample := none, possible_tor_handshake := false,
    relay_comm := false, directory_fetch := false,
    obfsproxy_candidate := false, confidence_score := 0,
    confidence_category := none }

/-- The fixture flow after the classifier ran with the directory loaded. -/
def c3Flow : Flow := analyzeFlow ["185.220.101.1"] c3FlowRaw

/-- Existing relay record for the directory-reload analysis. -/
def c5Node : TorNode :=
  { id := 1, ip_address := "185.220.101.1", port := 9001,
    fingerprint := some "OLDFP", nickname := some "old",
    flags := ["Guard"], country_code := some "de", asn := some "AS1",
    bandwidth := some 1000 }

/-- Snapshot record with the same address but different attributes. -/
def c5Snap : NodeData :=
  { ip_address := "185.220.101.1", port := 443,
    fingerprint := some "NEWFP", nickname := some "new",
    flags := ["Exit"], country_code := some "us", asn := some "AS2",
    bandwidth := some 2000 }

/-- Witness store row for the amended directory-reload claim. -/
def c5wNode : TorNode :=
  { id := 3, ip_address := "1.2.3.4", port := 9001, fingerprint := none,
    nickname := none, flags := [], country_code := none, asn := none,
    bandwidth := none }

/-- Witness snapshot record with a fresh address. -/
def c5wSnap : NodeData :=
  { ip_address := "5.6.7.8", port := 9030, fingerprint := none,
    nickname := none, flags := ["Exit"], country_code := none, asn := none,
    bandwidth := none }

/-- A flow with an unset payload sample but a large byte count. -/
def c6Flow : Flow :=
  { c3FlowRaw with id := 6, byte_count := 20000, payload_sample := none }

/-- Witness flow: nonempty payload sample, large byte count, no indicator
booleans. -/
def c6wFlow : Flow :=
  { c3FlowRaw with id := 7, byte_count := 20000, payload_sample := some [9] }

/-- Left flow of the correlator fixtures: internal source, destination a
Guard relay. -/
def c2f1 : Flow :=
  { id := 11, src_ip := "192.168.1.100", src_port := 50000,
    dst_ip := "185.220.101.1", dst_port := 9001, protocol := "TCP",
    ts_start := 0, ts_end := 1, pkt_count := 100, byte_count := 10000,
    payload_sample := none, possible_tor_handshake := false,
    relay_comm := true, directory_fetch := false,
    obfsproxy_candidate := false, confidence_score := 0,
    confidence_category := none }

/-- Right flow of the correlator fixtures: same internal source,
destination not a relay. -/
def c2f2 : Flow :=
  { id := 12, src_ip := "192.168.1.100", src_port := 50001,
    dst_ip := "8.8.8.8", dst_port := 443, protocol := "TCP",
    ts_start := 0, ts_end := 1, pkt_count := 50, byte_count := 5000,
    payload_sample := none, possible_tor_handshake := false,
    relay_comm := true, directory_fetch := false,
    obfsproxy_candidate := false, confidence_score := 0,
    confidence_category := none }

/-- Directory for the correlator fixtures: the left destination is a Guard. -/
def c2Node : TorNode :=
  { id := 21, ip_address := "185.220.101.1", port := 9001,
    fingerprint := none, nickname := none, flags := ["Guard"],
    country_code := none, asn := none, bandwidth := none }

/-- Initial store for the correlation-pass idempotence analysis. -/
def c2Store0 : Store :=
  { flows := [c2f1, c2f2], nodes := [c2Node], correlations := [] }

/-- The correlation row the pass emits for `(c2f1, c2f2)`:
0.4 (Δt < 1) + 0.3 (entry/exit) + 0.2 (equal mean size) + 0.1 (same
source) = 1. -/
def c2Row : CorrRow :=
  { flow1 := c2f1, flow2 := c2f2, correlation_weight := 1,
    correlation_type := "entry_exit" }

/-- Store after one correlation pass. -/
def c2Store1 : Store := { c2Store0 with correlations := [c2Row] }

/-- Store after two correlation passes: the row is duplicated. -/
def c2Store2 : Store := { c2Store0 with correlations := [c2Row, c2Row] }

/-- Left flow of the correlator-weight witness (no packets, so the size
component is skipped). -/
def c7a : Flow :=
  { id := 31, src_ip := "10.0.0.1", src_port := 1, dst_ip := "7.7.7.7",
    dst_port := 7, protocol := "TCP", ts_start := 0, ts_end := 0,
    pkt_count := 0, byte_count := 0, payload_sample := none,
    possible_tor_handshake := true, relay_comm := false,
    directory_fetch := false, obfsproxy_candidate := false,
    confidence_score := 0, confidence_category := none }

/-- Right flow of the correlator-weight witness: same source address. -/
def c7b : Flow :=
  { c7a with id := 32, src_port := 2 }

/-- The row the witness scan emits: 0.4 (Δt < 1) + 0.1 (same source). -/
def c7Row : CorrRow :=
  { flow1 := c7a, flow2 := c7b, correlation_weight := 0.5,
    correlation_type := "timing" }

/-- A 100-byte payload of bytes 128..227: one hundred distinct values, none
of the ASCII protocol markers. -/
def obfsPayload100 : List Byte := List.range' 128 100

/-- Witness store for the missing-flow scoring claim: one flow with id 1. -/
def c10Store : ScoreStore :=
  { flows := [{ c3FlowRaw with id := 1 }], nodes := [], correlations := [] }

/-! # Theorems -/

/-- C8 (counterexample): a payload prefix of length exactly 100 that meets
the other conditions of rule R5 — no ASCII protocol marker in the first
100 bytes and more than 50 distinct byte values — does NOT fire the rule:
the source requires `len(payload) > 100` strictly, not `≥ 100` as the
claim states. -/
theorem c8_counterexample :
    obfsPayload100.length = 100
    ∧ (∀ m ∈ commonMarkers, hasSub m (obfsPayload100.take 100) = false)
    ∧ 50 < countDistinct (obfsPayload100.take 100)
    ∧ checkObfsproxyPatterns obfsPayload100 = false := by
  decide

/-- C8 (amended): classification sets `obfuscated_candidate` iff the
decoded payload prefix is STRICTLY longer than 100 bytes, none of the six
ASCII markers occurs in its first 100 bytes, and the first 100 bytes hold
more than 50 distinct byte values. -/
theorem c8_amended (p : List Byte) :
    checkObfsproxyPatterns p = true ↔
      100 < p.length ∧ (∀ m ∈ commonMarkers, hasSub m (p.take 100) = false)
        ∧ 50 < countDistinct (p.take 100) := by
  unfold checkObfsproxyPatterns
  by_cases h20 : p.length < 20
  · simp only [if_pos h20]
    constructor
    · intro h; cases h
    · rintro ⟨h, -, -⟩; omega
  · simp only [if_neg h20]
    by_cases hc : ¬ (commonMarkers.any fun m => hasSub m (p.take 100)) = true ∧ p.length > 100
    · rw [if_pos hc]
      simp only [decide_eq_true_eq]
      constructor
      · intro h
        refine ⟨hc.2, ?_, h⟩
        intro m hm
        have := hc.1
        simp only [List.any_eq_true, not_exists, not_and] at this
        have hne := this m hm
        simpa using hne
      · rintro ⟨-, -, h⟩; exact h
    · rw [if_neg hc]
      constructor
      · intro h; cases h
      · rintro ⟨h1, h2, -⟩
        exfalso
        apply hc
        refine ⟨?_, h1⟩
        simp only [List.any_eq_true, not_exists, not_and]
        intro m hm
        simp [h2 m hm]

/-- C9 (counterexample): the private-address check is not total: on the
malformed address `172.x.1.1` it raises (`int('x')` fails), instead of
returning a boolean, so a correlation pass examining this source address
aborts. -/
theorem c9_counterexample :
    isInternalIpE "172.x.1.1" [] = .error "ValueError: invalid literal for int" := by
  rfl

/-- C9 (amended): the private-address check returns a boolean for
addresses matching none of the private prefixes, but on a string that
begins with `172.` and whose second dot-separated component is not a
decimal integer it raises `ValueError`, so a correlation pass examining
such an address aborts rather than treating it as non-private. -/
theorem c9_amended :
    (∀ ip known p1 p2 rest, ip ∉ known →
      pyStartsWith ip "10." = false →
      pyStartsWith ip "192.168." = false →
      pyStartsWith ip "172." = true →
      splitOnDot ip = p1 :: p2 :: rest →
      pyInt? p2 = none →
      isInternalIpE ip known = .error "ValueError: invalid literal for int")
    ∧ (∀ ip known, ip ∉ known →
      pyStartsWith ip "10." = false →
      pyStartsWith ip "192.168." = false →
      pyStartsWith ip "172." = false →
      isInternalIpE ip known = .ok false) := by
  constructor
  · intro ip known p1 p2 rest hk h10 h192 h172 hsplit hbad
    unfold isInternalIpE
    rw [if_neg (fun h => hk h.2)]
    simp [h10, h192, h172, hsplit, hbad]
  · intro ip known hk h10 h192 h172
    unfold isInternalIpE
    rw [if_neg (fun h => hk h.2)]
    simp [h10, h192, h172]

/-- C9 (witness): the amended statement applied at the malformed address
`172.bad.1.1` and at the public address `8.8.8.8`. -/
theorem c9_witness :
    isInternalIpE "172.bad.1.1" [] = .error "ValueError: invalid literal for int"
    ∧ isInternalIpE "8.8.8.8" [] = .ok false :=
  ⟨c9_amended.1 "172.bad.1.1" [] "172".data "bad".data ["1".data, "1".data]
      (by simp) rfl rfl rfl rfl rfl,
    c9_amended.2 "8.8.8.8" [] (by simp) rfl rfl rfl⟩

/-- C6 (counterexample): a flow with an UNSET payload sample and
`byte_count > 10000` receives a payload-patterns component of 0, not 4:
the scorer returns 0 outright when the stored sample is falsy, so the
claimed unconditional formula fails. -/
theorem c6_counterexample :
    10000 < c6Flow.byte_count
    ∧ c6Flow.payload_sample = none
    ∧ scorePayloadPatterns c6Flow = 0
    ∧ scorePayloadPatterns c6Flow ≠ 4 := by
  refine ⟨by norm_num [c6Flow, c3FlowRaw], rfl, rfl, ?_⟩
  norm_num [scorePayloadPatterns, c6Flow, c3FlowRaw]

/-- C6 (amended): for a flow whose stored payload sample is present and
nonempty, the payload-patterns component equals
min(20, 12·[possible_handshake] + 16·[obfuscated_candidate] +
4·[byte_count > 10000]); when the sample is unset or empty the component
is 0 regardless of the byte count. -/
theorem c6_amended (f : Flow) (p : List Byte)
    (hp : f.payload_sample = some p) (hne : p ≠ []) :
    scorePayloadPatterns f =
      min 20 ((if f.possible_tor_handshake then (12 : ℚ) else 0)
        + (if f.obfsproxy_candidate then (16 : ℚ) else 0)
        + (if 10000 < f.byte_count then (4 : ℚ) else 0)) := by
  unfold scorePayloadPatterns
  rw [hp]
  have hemp : p.isEmpty = false := by simpa using hne
  simp only [hemp, Bool.false_eq_true, if_false]
  split_ifs <;> norm_num [min_comm]

/-- C6 (witness): the amended formula at a concrete flow with a nonempty
one-byte sample, no indicator booleans, and `byte_count = 20000`: the
component is 4. -/
theorem c6_witness :
    c6wFlow.payload_sample = some [9] ∧ ([9] : List Byte) ≠ []
    ∧ scorePayloadPatterns c6wFlow = 4 := by
  refine ⟨rfl, by simp, ?_⟩
  have h := c6_amended c6wFlow [9] rfl (by simp)
  rw [h]
  norm_num [c6wFlow, c3FlowRaw]

/-- C10 (confirmed): scoring a flow id absent from the store returns the
error `Flow <id> not found` (never a score), leaves the persisted store
exactly unchanged, and closes the session on that exit path. -/
theorem c10_missing_flow (s : ScoreStore) (fid : Nat)
    (h : ∀ f ∈ s.flows, f.id ≠ fid) :
    scoreFlowE s fid = (.error ("Flow " ++ toString fid ++ " not found"), s, true) := by
  unfold scoreFlowE
  have hf : s.flows.find? (fun f => f.id = fid) = none := by
    rw [List.find?_eq_none]
    intro f hfm
    simpa using h f hfm
  rw [hf]

/-- C10 (witness): the missing-flow theorem applied at a store holding only
flow id 1 and the absent id 2. -/
theorem c10_witness :
    scoreFlowE c10Store 2 = (.error ("Flow " ++ toString 2 ++ " not found"), c10Store, true) :=
  c10_missing_flow c10Store 2 (by decide)

/-- Helper: one directory load appends only rows with fresh addresses and
leaves every pre-existing row (primary key included) untouched. -/
theorem loadTorNodes_append (snap : List NodeData) :
    ∀ (store : List TorNode) (nid : Nat),
      ∃ new, loadTorNodes store snap nid = store ++ new
        ∧ ∀ m ∈ new, ∀ n ∈ store, m.ip_address ≠ n.ip_address := by
  induction snap with
  | nil => intro store nid; exact ⟨[], by simp [loadTorNodes]⟩
  | cons d rest ih =>
    intro store nid
    unfold loadTorNodes
    by_cases h : store.any (fun n => n.ip_address = d.ip_address)
    · simpa [h] using ih store nid
    · simp only [h, Bool.false_eq_true, if_false]
      obtain ⟨new, hnew, hfresh⟩ := ih (store ++ [d.toNode nid]) (nid + 1)
      refine ⟨d.toNode nid :: new, by rw [hnew]; simp, ?_⟩
      intro m hm n hn
      rcases List.mem_cons.mp hm with rfl | hm'
      · intro hip
        apply h
        rw [List.any_eq_true]
        exact ⟨n, hn, by simpa using hip.symm⟩
      · exact hfresh m hm' n (List.mem_append_left _ hn)

/-- Helper: one directory load preserves uniqueness of addresses. -/
theorem loadTorNodes_nodup (snap : List NodeData) :
    ∀ (store : List TorNode) (nid : Nat),
      ((store.map (fun n => n.ip_address)).Nodup) →
      ((loadTorNodes store snap nid).map (fun n => n.ip_address)).Nodup := by
  induction snap with
  | nil => intro store nid h; simpa [loadTorNodes] using h
  | cons d rest ih =>
    intro store nid h
    unfold loadTorNodes
    by_cases hx : store.any (fun n => n.ip_address = d.ip_address)
    · simp only [hx, if_true]
      exact ih store nid h
    · simp only [hx, Bool.false_eq_true, if_false]
      apply ih
      rw [List.map_append]
      refine List.Nodup.append h (by simp) ?_
      intro a ha hb
      simp only [List.map_cons, List.map_nil, List.mem_singleton] at hb
      rcases List.mem_map.mp ha with ⟨n, hn, rfl⟩
      apply hx
      rw [List.any_eq_true]
      exact ⟨n, hn, by simpa using hb⟩

/-- C5 (counterexample): loading a directory snapshot whose record shares
the address of an existing RelayNode row does NOT overwrite the row's
attributes: with an existing row at port 9001 and a snapshot entry at port
443 for the same address, the row keeps port 9001 (and all its other old
fields), refuting upsert-by-address. -/
theorem c5_counterexample :
    c5Node.port = 9001 ∧ c5Snap.port = 443
    ∧ c5Snap.ip_address = c5Node.ip_address
    ∧ loadTorNodes [c5Node] [c5Snap] 2 = [c5Node] := by
  decide

/-- C5 (amended): loading a directory snapshot is insert-if-absent by
address: every pre-existing row (primary key and all attribute fields) is
left exactly unchanged, only records with addresses absent from the store
are appended, and address uniqueness is preserved. -/
theorem c5_amended (store : List TorNode) (snap : List NodeData) (nid : Nat) :
    (∃ new, loadTorNodes store snap nid = store ++ new
        ∧ ∀ m ∈ new, ∀ n ∈ store, m.ip_address ≠ n.ip_address)
    ∧ (((store.map (fun n => n.ip_address)).Nodup) →
        ((loadTorNodes store snap nid).map (fun n => n.ip_address)).Nodup) :=
  ⟨loadTorNodes_append snap store nid, loadTorNodes_nodup snap store nid⟩

/-- C5 (witness): the amended statement at a one-row store and a snapshot
with a fresh address; the uniqueness hypothesis is discharged by
computation. -/
theorem c5_witness :
    (∃ new, loadTorNodes [c5wNode] [c5wSnap] 7 = [c5wNode] ++ new
        ∧ ∀ m ∈ new, ∀ n ∈ [c5wNode], m.ip_address ≠ n.ip_address)
    ∧ ((loadTorNodes [c5wNode] [c5wSnap] 7).map (fun n => n.ip_address)).Nodup :=
  ⟨(c5_amended [c5wNode] [c5wSnap] 7).1,
   (c5_amended [c5wNode] [c5wSnap] 7).2 (by decide)⟩

/-- C1 (code_bug, evaluation at the failing input): a streaming ingest of
a capture with K = 1 distinct 5-tuple and M = 2 parseable packets under
batch-size hint 1 persists THREE Flow rows whose `pkt_count`s sum to 5 —
not one row summing to 2 — because `_flush_flows` never clears the
in-memory map (it still holds its accumulator after the final flush), so
every flush from the hint onward re-persists all accumulators.  Eager mode
on the same capture produces the correct single row with `pkt_count` 2. -/
theorem c1_failing_eval :
    ([c1Pkt 0, c1Pkt 1].filter parseable).length = 2
    ∧ ([c1Pkt 0, c1Pkt 1].filterMap packetKey).dedup.length = 1
    ∧ (ingestPcap 1 true [c1Pkt 0, c1Pkt 1]).store.length = 3
    ∧ ((ingestPcap 1 true [c1Pkt 0, c1Pkt 1]).store.map (fun r => r.pkt_count)).sum = 5
    ∧ (ingestPcap 1 true [c1Pkt 0, c1Pkt 1]).flows.length = 1
    ∧ (ingestPcap 1000 false [c1Pkt 0, c1Pkt 1]).store.length = 1
    ∧ ((ingestPcap 1000 false [c1Pkt 0, c1Pkt 1]).store.map (fun r => r.pkt_count)).sum = 2 := by
  decide

/-- C4 (counterexample): on an out-of-order capture — two packets of one
5-tuple with timestamps 10 then 5 — the persisted flow has
`ts_start = 10 > ts_end = 5`: `update` assigns `ts_end` to the packet time
instead of taking the maximum, so the claimed invariant `ts_start ≤ ts_end`
fails. -/
theorem c4_counterexample :
    ((ingestPcap 1000 false [c4PktA, c4PktB]).store.map (fun r => r.ts_start)) = [10]
    ∧ ((ingestPcap 1000 false [c4PktA, c4PktB]).store.map (fun r => r.ts_end)) = [5]
    ∧ ¬ (∀ r ∈ (ingestPcap 1000 false [c4PktA, c4PktB]).store, r.ts_start ≤ r.ts_end) := by
  decide

/-- Helper: a failed accumulator lookup means no entry carries the key. -/
theorem lookupKey_none (m : List (FlowKey × FlowRecord)) (k : FlowKey)
    (h : lookupKey m k = none) : ∀ kv ∈ m, ¬ kv.1 = k := by
  induction m with
  | nil => intro kv hkv; cases hkv
  | cons kv0 rest ih =>
    intro kv hkv
    unfold lookupKey at h
    by_cases hk : kv0.1 = k
    · rw [if_pos hk] at h; cases h
    · rw [if_neg hk] at h
      rcases List.mem_cons.mp hkv with rfl | hm
      · exact hk
      · exact ih h kv hm

/-- Helper: every entry after an in-place map update is either an
untouched entry of a different key or the image of the keyed entry. -/
theorem updateAssoc_mem (m : List (FlowKey × FlowRecord)) (k : FlowKey)
    (f : FlowRecord → FlowRecord) :
    ∀ kv ∈ updateAssoc m k f,
      ∃ kv0 ∈ m, (¬ kv0.1 = k ∧ kv = kv0) ∨ (kv0.1 = k ∧ kv = (kv0.1, f kv0.2)) := by
  intro kv hkv
  rcases List.mem_map.mp hkv with ⟨kv0, h0, heq⟩
  by_cases h : kv0.1 = k
  · exact ⟨kv0, h0, Or.inr ⟨h, by rw [← heq]; simp [h]⟩⟩
  · exact ⟨kv0, h0, Or.inl ⟨h, by rw [← heq]; simp [h]⟩⟩

/-- Helper: a fresh accumulator updated with its first packet satisfies the
flow invariant. -/
theorem flowInv_init_update (k : FlowKey) (t : ℚ)
    (payload : Option (List Byte)) (sz : Nat) (hsz : 1 ≤ sz) :
    flowInv ((FlowRecord.init k t).update t payload sz) := by
  unfold flowInv FlowRecord.update FlowRecord.init
  refine ⟨by simp, by simpa using hsz, le_refl t, ?_⟩
  intro p hp
  simp only at hp
  split at hp
  · split at hp
    · cases hp
      exact List.length_take_le 512 _
    · cases hp
  · cases hp

/-- Helper: updating an accumulator with a packet no older than its start
preserves the flow invariant. -/
theorem flowInv_update (r : FlowRecord) (t : ℚ) (payload : Option (List Byte))
    (sz : Nat) (hr : flowInv r) (hts : r.ts_start ≤ t) (hsz : 1 ≤ sz) :
    flowInv (r.update t payload sz) := by
  obtain ⟨h1, h2, _, h4⟩ := hr
  unfold flowInv FlowRecord.update
  refine ⟨?_, ?_, hts, ?_⟩
  · show 1 ≤ r.pkt_count + 1
    omega
  · show r.pkt_count + 1 ≤ r.byte_count + sz
    omega
  · intro p hp
    simp only at hp
    split at hp
    · split at hp
      · cases hp
        exact List.length_take_le 512 _
      · exact h4 p hp
    · exact h4 p hp

/-- Helper: `process_packet` preserves the flow invariant on every live
accumulator, and every accumulator's start time is either an old start
time or the current packet's time. -/
theorem processPacket_inv (flows : List (FlowKey × FlowRecord)) (p : Packet)
    (hsz : 1 ≤ p.size)
    (hinv : ∀ kv ∈ flows, flowInv kv.2 ∧ kv.2.ts_start ≤ p.time) :
    ∀ kv ∈ processPacket flows p,
      flowInv kv.2
        ∧ (kv.2.ts_start = p.time ∨ ∃ kv0 ∈ flows, kv.2.ts_start = kv0.2.ts_start) := by
  intro kv hkv
  unfold processPacket at hkv
  cases hpk : packetKey p with
  | none =>
      simp only [hpk] at hkv
      exact ⟨(hinv kv hkv).1, Or.inr ⟨kv, hkv, rfl⟩⟩
  | some k =>
      simp only [hpk] at hkv
      cases hl : lookupKey flows k with
      | some r0 =>
          simp only [hl] at hkv
          obtain ⟨kv0, h0, hcase⟩ := updateAssoc_mem flows k _ kv hkv
          rcases hcase with ⟨-, heq⟩ | ⟨-, heq⟩
          · rw [heq]
            exact ⟨(hinv kv0 h0).1, Or.inr ⟨kv0, h0, rfl⟩⟩
          · rw [heq]
            have h1 := hinv kv0 h0
            exact ⟨flowInv_update kv0.2 p.time p.payload p.size h1.1 h1.2 hsz,
                   Or.inr ⟨kv0, h0, rfl⟩⟩
      | none =>
          simp only [hl] at hkv
          obtain ⟨kv0, h0, hcase⟩ :=
            updateAssoc_mem (flows ++ [(k, FlowRecord.init k p.time)]) k _ kv hkv
          rcases List.mem_append.mp h0 with h0f | h0n
          · have hne := lookupKey_none flows k hl kv0 h0f
            rcases hcase with ⟨-, heq⟩ | ⟨hk, -⟩
            · rw [heq]
              exact ⟨(hinv kv0 h0f).1, Or.inr ⟨kv0, h0f, rfl⟩⟩
            · exact absurd hk hne
          · have h0e : kv0 = (k, FlowRecord.init k p.time) := by simpa using h0n
            rcases hcase with ⟨hk, -⟩ | ⟨-, heq⟩
            · exact absurd (by rw [h0e]) hk
            · rw [heq, h0e]
              exact ⟨flowInv_init_update k p.time p.payload p.size hsz, Or.inl rfl⟩

/-- Helper: flushing preserves the ingest-state invariant (it only copies
accumulators into the store). -/
theorem flush_inv (st : IngestState) (future : List Packet)
    (h : stInv st future) : stInv (flushFlows st) future := by
  unfold flushFlows
  by_cases he : st.flows.isEmpty = true
  · rw [if_pos he]; exact h
  · rw [if_neg he]
    refine ⟨?_, h.2⟩
    intro r hr
    rcases List.mem_append.mp hr with h1 | h2
    · exact h.1 r h1
    · rcases List.mem_map.mp h2 with ⟨kv, hkv, rfl⟩
      exact (h.2 kv hkv).1

/-- Helper: the streaming fold maintains the ingest-state invariant over a
time-ordered capture of positive-size packets. -/
theorem ingest_stream_inv (bs : Nat) (pkts : List Packet) :
    ∀ (st : IngestState),
      List.Pairwise (fun p q : Packet => p.time ≤ q.time) pkts →
      (∀ p ∈ pkts, 1 ≤ p.size) →
      stInv st pkts →
      stInv (pkts.foldl (ingestStepStreaming bs) st) [] := by
  induction pkts with
  | nil =>
      intro st _ _ h
      exact ⟨h.1, fun kv hkv => ⟨(h.2 kv hkv).1, by simp⟩⟩
  | cons p rest ih =>
    intro st hmono hsz hst
    rw [List.foldl_cons]
    apply ih
    · exact hmono.of_cons
    · intro q hq; exact hsz q (List.mem_cons_of_mem _ hq)
    · unfold ingestStepStreaming
      have hst' : stInv { st with flows := processPacket st.flows p } rest := by
        refine ⟨hst.1, ?_⟩
        intro kv hkv
        have hp := processPacket_inv st.flows p (hsz p (by simp))
            (fun kv0 h0 => ⟨(hst.2 kv0 h0).1, (hst.2 kv0 h0).2 p (by simp)⟩) kv hkv
        refine ⟨hp.1, ?_⟩
        intro q hq
        rcases hp.2 with he | ⟨kv0, h0, he⟩
        · rw [he]
          exact (List.pairwise_cons.mp hmono).1 q hq
        · rw [he]
          exact (hst.2 kv0 h0).2 q (List.mem_cons_of_mem _ hq)
      by_cases hb : bs ≤ (processPacket st.flows p).length
      · rw [if_pos hb]
        exact flush_inv _ rest hst'
      · rw [if_neg hb]
        exact hst'

/-- Helper: the eager fold maintains the accumulator invariant over a
time-ordered capture of positive-size packets. -/
theorem ingest_eager_inv (pkts : List Packet) :
    ∀ (flows : List (FlowKey × FlowRecord)),
      List.Pairwise (fun p q : Packet => p.time ≤ q.time) pkts →
      (∀ p ∈ pkts, 1 ≤ p.size) →
      (∀ kv ∈ flows, flowInv kv.2 ∧ ∀ p ∈ pkts, kv.2.ts_start ≤ p.time) →
      ∀ kv ∈ pkts.foldl processPacket flows, flowInv kv.2 := by
  induction pkts with
  | nil => intro flows _ _ h kv hkv; exact (h kv hkv).1
  | cons p rest ih =>
    intro flows hmono hsz h
    rw [List.foldl_cons]
    apply ih
    · exact hmono.of_cons
    · intro q hq; exact hsz q (List.mem_cons_of_mem _ hq)
    · intro kv hkv
      have hp := processPacket_inv flows p (hsz p (by simp))
          (fun kv0 h0 => ⟨(h kv0 h0).1, (h kv0 h0).2 p (by simp)⟩) kv hkv
      refine ⟨hp.1, ?_⟩
      intro q hq
      rcases hp.2 with he | ⟨kv0, h0, he⟩
      · rw [he]
        exact (List.pairwise_cons.mp hmono).1 q hq
      · rw [he]
        exact (h kv0 h0).2 q (List.mem_cons_of_mem _ hq)

/-- C4 (amended): after an ingest of a capture whose packet timestamps are
non-decreasing and whose parseable packets have positive on-wire length,
every persisted Flow satisfies `pkt_count ≥ 1`, `byte_count ≥ pkt_count`,
`ts_start ≤ ts_end`, and a stored payload prefix of at most 512 bytes —
in both streaming and eager modes.  (For out-of-order captures the claim
fails: `update` assigns `ts_end` to the packet time rather than the
maximum, so `ts_end` can decrease below `ts_start`.) -/
theorem c4_amended (bs : Nat) (streaming : Bool) (pkts : List Packet)
    (hmono : List.Pairwise (fun p q : Packet => p.time ≤ q.time) pkts)
    (hsz : ∀ p ∈ pkts, 1 ≤ p.size) :
    ∀ r ∈ (ingestPcap bs streaming pkts).store,
      1 ≤ r.pkt_count ∧ r.pkt_count ≤ r.byte_count ∧ r.ts_start ≤ r.ts_end
        ∧ ∀ p, r.payload_sample = some p → p.length ≤ 512 := by
  intro r hr
  unfold ingestPcap at hr
  cases streaming with
  | true =>
      simp only [if_true] at hr
      have h0 : stInv ⟨[], []⟩ pkts := ⟨by simp, by simp⟩
      have h := flush_inv _ [] (ingest_stream_inv bs pkts ⟨[], []⟩ hmono hsz h0)
      exact h.1 r hr
  | false =>
      simp only [Bool.false_eq_true, if_false] at hr
      have hfold := ingest_eager_inv pkts [] hmono hsz (by simp)
      have h : stInv { flows := pkts.foldl processPacket [], store := [] } [] := by
        refine ⟨by simp, ?_⟩
        intro kv hkv
        exact ⟨hfold kv hkv, by simp⟩
      exact (flush_inv _ [] h).1 r hr

/-- C3 (counterexample): in the end-to-end fixture (one TCP flow
`192.168.1.100:50000 → 185.220.101.1:9001`, 100 packets, 10000 bytes, no
payload, directory holding `185.220.101.1` with flags [Guard, Fast,
Stable], no correlations) the unusual-shape component is 5 and the total
is 45 — not 8 and 48 as claimed: the packet-count bonus needs
`pkt_count > 100` strictly, and the fixture has exactly 100 packets. -/
theorem c3_counterexample :
    scoreUnusualPatterns c3Flow = 5
    ∧ (calculateScore [c3Node] [] c3Flow).total = 45
    ∧ ¬ (scoreUnusualPatterns c3Flow = 8
          ∧ (calculateScore [c3Node] [] c3Flow).total = 48) := by
  have hflow : c3Flow = { c3FlowRaw with relay_comm := true } := by
    simp [c3Flow, analyzeFlow, c3FlowRaw, TOR_PORTS]
  have hu : scoreUnusualPatterns c3Flow = 5 := by
    rw [hflow]
    norm_num [scoreUnusualPatterns, c3FlowRaw, TOR_PORTS]
  have ht : scoreTorNodeMatch [c3Node] c3Flow = 40 := by
    rw [hflow]
    norm_num [scoreTorNodeMatch, c3FlowRaw, c3Node, List.find?]
    split_ifs <;> norm_num
  have hc : scoreTimingCorrelation [] c3Flow = 0 := by
    norm_num [scoreTimingCorrelation]
  have hp : scorePayloadPatterns c3Flow = 0 := by
    rw [hflow]
    norm_num [scorePayloadPatterns, c3FlowRaw]
  have htot : (calculateScore [c3Node] [] c3Flow).total = 45 := by
    unfold calculateScore
    rw [ht, hc, hp, hu]  -- hmm lets
    norm_num
  refine ⟨hu, htot, ?_⟩
  rintro ⟨h8, -⟩
  rw [hu] at h8
  norm_num at h8

/-- C3 (amended): in the end-to-end fixture, after classify and score with
no correlations present, `relay_comm` is true, `possible_handshake` is
false, the relay-node-match component clamps to 40 (20 base + 8 Guard +
4 Fast + 12 relay_comm = 44 → 40), the payload component is 0, the
unusual-shape component is 5 (relay port only: 100 packets is not
`> 100`), the total is 45, and the category is Medium. -/
theorem c3_amended :
    c3Flow.relay_comm = true
    ∧ c3Flow.possible_tor_handshake = false
    ∧ (calculateScore [c3Node] [] c3Flow).tor_node_match = 40
    ∧ (calculateScore [c3Node] [] c3Flow).timing_correlation = 0
    ∧ (calculateScore [c3Node] [] c3Flow).payload_similarity = 0
    ∧ (calculateScore [c3Node] [] c3Flow).unusual_patterns = 5
    ∧ (calculateScore [c3Node] [] c3Flow).total = 45
    ∧ getCategory (calculateScore [c3Node] [] c3Flow).total = "Medium" := by
  have hflow : c3Flow = { c3FlowRaw with relay_comm := true } := by
    simp [c3Flow, analyzeFlow, c3FlowRaw, TOR_PORTS]
  have hu : scoreUnusualPatterns c3Flow = 5 := by
    rw [hflow]
    norm_num [scoreUnusualPatterns, c3FlowRaw, TOR_PORTS]
  have ht : scoreTorNodeMatch [c3Node] c3Flow = 40 := by
    rw [hflow]
    norm_num [scoreTorNodeMatch, c3FlowRaw, c3Node, List.find?]
    split_ifs <;> norm_num
  have hc : scoreTimingCorrelation [] c3Flow = 0 := by
    norm_num [scoreTimingCorrelation]
  have hp : scorePayloadPatterns c3Flow = 0 := by
    rw [hflow]
    norm_num [scorePayloadPatterns, c3FlowRaw]
  have htot : (calculateScore [c3Node] [] c3Flow).total = 45 := by
    unfold calculateScore
    rw [ht, hc, hp, hu]
    norm_num
  refine ⟨by simp [hflow, c3FlowRaw], by simp [hflow, c3FlowRaw], ?_, ?_, ?_, ?_, htot, ?_⟩
  · unfold calculateScore; rw [ht]
  · unfold calculateScore; rw [hc]
  · unfold calculateScore; rw [hp]
  · unfold calculateScore; rw [hu]
  · rw [htot]
    norm_num [getCategory]

/-- Helper: concrete evaluation of the first correlation pass on the
two-flow fixture store. -/
theorem c2_eval1 : correlateFlowsE 0.3 10 c2Store0 = .ok c2Store1 := by
  simp [correlateFlowsE, c2Store0, c2Store1, c2Row, getInternalIpsE,
    isInternalIpE, dedupStr, sortFlows, insertByTs, torRelated, outerScanE,
    innerScanE, calcCorrelation, checkEntryExitPattern, mkCorrRow,
    pyStartsWith, listStartsWith, c2f1, c2f2, c2Node, List.find?]
  norm_num

/-- Helper: concrete evaluation of the second correlation pass, starting
from the output of the first. -/
theorem c2_eval2 : correlateFlowsE 0.3 10 c2Store1 = .ok c2Store2 := by
  simp [correlateFlowsE, c2Store0, c2Store1, c2Store2, c2Row,
    getInternalIpsE, isInternalIpE, dedupStr, sortFlows, insertByTs,
    torRelated, outerScanE, innerScanE, calcCorrelation,
    checkEntryExitPattern, mkCorrRow, pyStartsWith, listStartsWith,
    c2f1, c2f2, c2Node, List.find?]
  norm_num

/-- C2 (counterexample): re-running the correlation pass on a fixed flow
snapshot is NOT idempotent: the pass never deletes prior Correlation rows,
so on a store with one correlatable internal pair the first pass persists
one row and the second pass leaves two identical rows — the persisted set
is not the same after the second pass. -/
theorem c2_counterexample :
    correlateFlowsE 0.3 10 c2Store0 = .ok c2Store1
    ∧ correlateFlowsE 0.3 10 c2Store1 = .ok c2Store2
    ∧ c2Store1.correlations.length = 1
    ∧ c2Store2.correlations.length = 2
    ∧ c2Store2.correlations = c2Store1.correlations ++ c2Store1.correlations :=
  ⟨c2_eval1, c2_eval2, rfl, rfl, rfl⟩

/-- C2 (amended): a correlation pass is purely additive: it recomputes the
pairwise rows from the (unchanged) flow set and APPENDS them to the
existing Correlation rows, so a second pass with the same window and
threshold appends the exact same batch again — duplicate rows accumulate
instead of the pass being destructive over prior rows. -/
theorem c2_amended (θ W : ℚ) (s s1 s2 : Store)
    (h1 : correlateFlowsE θ W s = .ok s1)
    (h2 : correlateFlowsE θ W s1 = .ok s2) :
    s1.flows = s.flows
    ∧ ∃ d, s1.correlations = s.correlations ++ d
        ∧ s2.correlations = s1.correlations ++ d := by
  unfold correlateFlowsE at h1
  cases hk : getInternalIpsE (dedupStr (s.flows.map (fun f => f.src_ip))) with
  | error e => simp only [hk] at h1; cases h1
  | ok known =>
    simp only [hk] at h1
    cases hr : outerScanE s.nodes θ W known (sortFlows (s.flows.filter torRelated)) with
    | error e => simp only [hr] at h1; cases h1
    | ok rows =>
      simp only [hr, Except.ok.injEq] at h1
      subst h1
      refine ⟨rfl, rows, rfl, ?_⟩
      unfold correlateFlowsE at h2
      simp only [hk, hr, Except.ok.injEq] at h2
      subst h2
      rfl

/-- C2 (witness): the amended statement at the concrete fixture store, with
both pass evaluations discharged by computation. -/
theorem c2_witness :
    c2Store1.flows = c2Store0.flows
    ∧ ∃ d, c2Store1.correlations = c2Store0.correlations ++ d
        ∧ c2Store2.correlations = c2Store1.correlations ++ d :=
  c2_amended 0.3 10 c2Store0 c2Store1 c2Store2 c2_eval1 c2_eval2

/-- Helper: the sequentially accumulated correlation weight of the source
equals the spec's closed-form sum. -/
theorem calc_eq_spec (nodes : List TorNode) (a b : Flow) :
    calcCorrelation nodes a b = specCorrelationWeight nodes a b := by
  unfold calcCorrelation specCorrelationWeight
  dsimp only
  split_ifs <;> ring

/-- Helper: every row an inner scan emits has the scanned flow on the
left, weight at least the threshold, and weight exactly the computed
correlation of its two flows (no renormalisation). -/
theorem innerScanE_rows (nodes : List TorNode) (θ W : ℚ) (known : List String)
    (a : Flow) :
    ∀ (seg : List Flow) (rows : List CorrRow),
      innerScanE nodes θ W known a seg = .ok rows →
      ∀ r ∈ rows, r.flow1 = a ∧ θ ≤ r.correlation_weight
        ∧ r.correlation_weight = calcCorrelation nodes a r.flow2 := by
  intro seg
  induction seg with
  | nil =>
      intro rows h r hr
      simp only [innerScanE, Except.ok.injEq] at h
      subst h
      cases hr
  | cons b rest ih =>
      intro rows h r hr
      rw [innerScanE] at h
      cases hb : isInternalIpE b.src_ip known with
      | error e => simp only [hb] at h; cases h
      | ok bb =>
          simp only [hb] at h
          by_cases hbb : bb = true
          · rw [if_neg (by simp [hbb])] at h
            by_cases hw : W < |b.ts_start - a.ts_start|
            · rw [if_pos hw] at h
              simp only [Except.ok.injEq] at h
              subst h
              cases hr
            · rw [if_neg hw] at h
              by_cases hθ : θ ≤ calcCorrelation nodes a b
              · rw [if_pos hθ] at h
                cases ht : innerScanE nodes θ W known a rest with
                | error e => simp only [ht] at h; cases h
                | ok tail =>
                    simp only [ht, Except.ok.injEq] at h
                    subst h
                    rcases List.mem_cons.mp hr with rfl | hm
                    · exact ⟨rfl, hθ, rfl⟩
                    · exact ih tail ht r hm
              · rw [if_neg hθ] at h
                exact ih rows h r hr
          · rw [if_pos (by simp [hbb])] at h
            exact ih rows h r hr

/-- Helper: on a successful scan in which every flow before `b` starts
between the left flow and `b` (so the window break cannot fire before
`b`), a weight at or above the threshold forces `b`'s row into the
output. -/
theorem innerScanE_mem (nodes : List TorNode) (θ W : ℚ) (known : List String)
    (a b : Flow) :
    ∀ (pre post : List Flow) (rows : List CorrRow),
      (∀ c ∈ pre, a.ts_start ≤ c.ts_start ∧ c.ts_start ≤ b.ts_start) →
      a.ts_start ≤ b.ts_start →
      b.ts_start - a.ts_start ≤ W →
      isInternalIpE b.src_ip known = .ok true →
      θ ≤ calcCorrelation nodes a b →
      innerScanE nodes θ W known a (pre ++ b :: post) = .ok rows →
      mkCorrRow nodes a b (calcCorrelation nodes a b) ∈ rows := by
  intro pre
  induction pre with
  | nil =>
      intro post rows hpre hab hwin hbint hθ h
      rw [List.nil_append, innerScanE] at h
      simp only [hbint] at h
      rw [if_neg (by simp)] at h
      have habs : ¬ (W < |b.ts_start - a.ts_start|) := by
        rw [abs_of_nonneg (by linarith)]
        exact not_lt.mpr hwin
      rw [if_neg habs] at h
      rw [if_pos hθ] at h
      cases ht : innerScanE nodes θ W known a post with
      | error e => simp only [ht] at h; cases h
      | ok tail =>
          simp only [ht, Except.ok.injEq] at h
          subst h
          exact List.mem_cons_self _ _
  | cons c pre' ih =>
      intro post rows hpre hab hwin hbint hθ h
      rw [List.cons_append, innerScanE] at h
      cases hcint : isInternalIpE c.src_ip known with
      | error e => simp only [hcint] at h; cases h
      | ok cb =>
          simp only [hcint] at h
          by_cases hcb : cb = true
          · rw [if_neg (by simp [hcb])] at h
            have hc1 := (hpre c (by simp)).1
            have hc2 := (hpre c (by simp)).2
            have hcw : ¬ (W < |c.ts_start - a.ts_start|) := by
              rw [abs_of_nonneg (by linarith)]
              apply not_lt.mpr
              linarith
            rw [if_neg hcw] at h
            by_cases hcθ : θ ≤ calcCorrelation nodes a c
            · rw [if_pos hcθ] at h
              cases ht : innerScanE nodes θ W known a (pre' ++ b :: post) with
              | error e => simp only [ht] at h; cases h
              | ok tail =>
                  simp only [ht, Except.ok.injEq] at h
                  subst h
                  exact List.mem_cons_of_mem _
                    (ih post tail (fun d hd => hpre d (by simp [hd])) hab hwin hbint hθ ht)
            · rw [if_neg hcθ] at h
              exact ih post rows (fun d hd => hpre d (by simp [hd])) hab hwin hbint hθ h
          · rw [if_pos (by simp [hcb])] at h
            exact ih post rows (fun d hd => hpre d (by simp [hd])) hab hwin hbint hθ h

/-- C7 (confirmed): for an ordered candidate pair `(a, b)` inside the
window of a `ts_start`-sorted successful scan, the correlation weight
equals exactly the spec's sum — timing term (0.4 / 0.3 / 0.2 / 0.1) +
0.3 on an entry/exit match + 0.2·(mean-size ratio) when both packet
counts are positive + 0.1 on equal source addresses — a row for the pair
is persisted if and only if that weight is at least the threshold, and
any persisted weight equals the computed weight (it is never
renormalised). -/
theorem c7_weight_and_gate (nodes : List TorNode) (θ W : ℚ) (known : List String)
    (a b : Flow) (pre post : List Flow) (rows : List CorrRow)
    (hsort : List.Pairwise (fun x y : Flow => x.ts_start ≤ y.ts_start)
      (a :: (pre ++ b :: post)))
    (hwin : |b.ts_start - a.ts_start| ≤ W)
    (hbint : isInternalIpE b.src_ip known = .ok true)
    (hok : innerScanE nodes θ W known a (pre ++ b :: post) = .ok rows) :
    calcCorrelation nodes a b = specCorrelationWeight nodes a b
    ∧ ((∃ r ∈ rows, r.flow2 = b) ↔ θ ≤ calcCorrelation nodes a b)
    ∧ (∀ r ∈ rows, r.flow2 = b → r.correlation_weight = calcCorrelation nodes a b) := by
  have hsound := innerScanE_rows nodes θ W known a _ rows hok
  have hab : a.ts_start ≤ b.ts_start :=
    (List.pairwise_cons.mp hsort).1 b (by simp)
  have hsort' := (List.pairwise_cons.mp hsort).2
  have hpre : ∀ c ∈ pre, a.ts_start ≤ c.ts_start ∧ c.ts_start ≤ b.ts_start := by
    intro c hc
    refine ⟨(List.pairwise_cons.mp hsort).1 c (List.mem_append_left _ hc), ?_⟩
    exact (List.pairwise_append.mp hsort').2.2 c hc b (by simp)
  refine ⟨calc_eq_spec nodes a b, ⟨?_, ?_⟩, ?_⟩
  · rintro ⟨r, hr, hr2⟩
    obtain ⟨-, hθ, hw⟩ := hsound r hr
    rw [hr2] at hw
    rw [hw] at hθ
    exact hθ
  · intro hθ
    have hwin' : b.ts_start - a.ts_start ≤ W := by
      rw [abs_of_nonneg (by linarith)] at hwin
      exact hwin
    exact ⟨mkCorrRow nodes a b (calcCorrelation nodes a b),
      innerScanE_mem nodes θ W known a b pre post rows hpre hab hwin' hbint hθ hok, rfl⟩
  · intro r hr hr2
    obtain ⟨-, -, hw⟩ := hsound r hr
    rw [hr2] at hw
    exact hw

/-- C7 (witness): the confirmed statement at a concrete sorted two-flow
scan (same internal source, zero packet counts, timing 0.4 + same-source
0.1 = 0.5 ≥ threshold 0.3) with every hypothesis discharged by
computation. -/
theorem c7_witness :
    calcCorrelation [] c7a c7b = specCorrelationWeight [] c7a c7b
    ∧ ((∃ r ∈ [c7Row], r.flow2 = c7b) ↔ (0.3 : ℚ) ≤ calcCorrelation [] c7a c7b)
    ∧ (∀ r ∈ [c7Row], r.flow2 = c7b →
        r.correlation_weight = calcCorrelation [] c7a c7b) :=
  c7_weight_and_gate [] 0.3 10 [] c7a c7b [] [] [c7Row]
    (by simp [c7a, c7b])
    (by norm_num [c7a, c7b])
    (by rfl)
    (by
      simp [innerScanE, isInternalIpE, pyStartsWith, listStartsWith,
        calcCorrelation, checkEntryExitPattern, mkCorrRow, c7a, c7b, c7Row]
      norm_num)

/-- C4 (witness): the amended invariants at a concrete one-packet capture. -/
theorem c4_witness :
    List.Pairwise (fun p q : Packet => p.time ≤ q.time) [c4wPkt]
    ∧ (∀ p ∈ [c4wPkt], 1 ≤ p.size)
    ∧ ∀ r ∈ (ingestPcap 5 true [c4wPkt]).store,
        1 ≤ r.pkt_count ∧ r.pkt_count ≤ r.byte_count ∧ r.ts_start ≤ r.ts_end
          ∧ ∀ p, r.payload_sample = some p → p.length ≤ 512 :=
  ⟨by simp, by decide, c4_amended 5 true [c4wPkt] (by simp) (by decide)⟩

end TorUnveil
